import Mathlib

/-!
# Verification of the `notary-gcr` trust adapter (`pkg/gcr/gcr.go`)

This file gives a shallow embedding of the `TrustedGcrRepository` adapter
from `pkg/gcr/gcr.go` and settles the specification claims about it.

The adapter composes two external collaborators: a registry client
(`pushImage`) and a trust-service client (`listTargets`,
`pushTrustedReference`, `getTrustedTarget`, `signImage`, `revokeImage`),
plus a configuration loader (`trust.ParseConfig`).  The collaborator
bodies live outside the adapter file, so the embedding abstracts them as
a `World`: a bundle of state-passing functions with exactly the Go
signatures.  Each adapter operation is translated statement by statement
from `gcr.go`; it additionally records the trace of collaborator calls it
performs (with the authenticator each call receives) and the trace of
`log.Errorf` messages it emits, so that temporal and logging claims can
be stated.

Go interface values (`name.Reference`, `authn.Authenticator`) and the
pointer `*trust.Config` are nilable, so the corresponding struct fields
and collaborator arguments are `Option`-typed; the Go zero value
`TrustedGcrRepository{}` is the record with all four fields `none`.
-/

namespace NotaryGcr

/-- Error taxonomy of the specification (section 7).  The adapter itself
never inspects or constructs kinds; collaborators produce them. -/
inductive ErrKind where
  | ConfigError
  | RegistryPushError
  | RegistryPullError
  | TrustUnavailable
  | NoTrustData
  | NotTrusted
  | TrustPublishError
  | SigningError
deriving DecidableEq, Repr

/-- A Go `error` value: a kind from the taxonomy plus its message
(the string `%s` formatting renders). -/
structure GcrError where
  kind : ErrKind
  msg : String
deriving DecidableEq, Repr

/-- `name.Reference`: a registry repository plus tag. -/
structure Reference where
  repository : String
  tag : String
deriving DecidableEq, Repr

/-- `authn.Authenticator`: an opaque credential provider. -/
structure Authenticator where
  credential : String
deriving DecidableEq, Repr

/-- `trust.Config`: trust-service server URL and local trust directory. -/
structure Config where
  serverUrl : String
  rootDir : String
deriving DecidableEq, Repr

/-- `v1.Image`: the adapter never inspects it; collaborators compute its
content digest and size, modelled as the two fields. -/
structure Image where
  digest : String
  size : Nat
deriving DecidableEq, Repr

/-- `client.Target`: a signed record binding a tag to a content digest
and byte size. -/
structure TargetRec where
  tag : String
  digest : String
  size : Nat
deriving DecidableEq, Repr

/-- The `TrustedGcrRepository` struct of `gcr.go` (lines 12-17).  Go
interface fields and the config pointer are nilable, hence `Option`. -/
structure TrustedGcrRepository where
  ref : Option Reference
  registryAuth : Option Authenticator
  notaryAuth : Option Authenticator
  config : Option Config
deriving DecidableEq, Repr

/-- The Go zero value `TrustedGcrRepository\x7b\x7d`: all four fields nil. -/
def TrustedGcrRepository.zero : TrustedGcrRepository :=
  { ref := none, registryAuth := none, notaryAuth := none, config := none }

/-- One collaborator call performed by the adapter, recording which
authenticator it received. -/
inductive CallEvent where
  | registryPush (ref : Option Reference) (img : Image) (auth : Option Authenticator)
  | trustPublish (ref : Option Reference) (img : Image) (auth : Option Authenticator)
  | trustList (ref : Option Reference) (auth : Option Authenticator)
  | trustGet (ref : Option Reference) (auth : Option Authenticator)
  | trustSign (ref : Option Reference) (img : Image) (auth : Option Authenticator)
  | trustRevoke (ref : Option Reference) (tag : String) (auth : Option Authenticator)
deriving DecidableEq, Repr

/-- Is this call a registry-collaborator call? -/
def CallEvent.isRegistry : CallEvent → Bool
  | .registryPush _ _ _ => true
  | _ => false

/-- Is this call a trust-service-collaborator call? -/
def CallEvent.isTrust : CallEvent → Bool
  | .registryPush _ _ _ => false
  | _ => true

/-- The authenticator a collaborator call received. -/
def CallEvent.auth : CallEvent → Option Authenticator
  | .registryPush _ _ a => a
  | .trustPublish _ _ a => a
  | .trustList _ a => a
  | .trustGet _ a => a
  | .trustSign _ _ a => a
  | .trustRevoke _ _ a => a

/-- The external collaborators, with the exact Go signatures of the
functions `gcr.go` delegates to.  They are state-passing over an
abstract collaborator state `σ` and return Go-style `(value, error)`
pairs. -/
structure World (σ : Type) where
  parseConfig : String → Option Config × Option GcrError
  pushImage : Option Reference → Image → Option Authenticator → σ → Option GcrError × σ
  pushTrustedReference : Option Reference → Image → Option Authenticator → Option Config → σ → Option GcrError × σ
  listTargets : Option Reference → Option Authenticator → Option Config → σ → (Option (List TargetRec) × Option GcrError) × σ
  getTrustedTarget : Option Reference → Option Authenticator → Option Config → σ → (Option TargetRec × Option GcrError) × σ
  signImage : Option Reference → Image → Option Authenticator → Option Config → σ → Option GcrError × σ
  revokeImage : Option Reference → String → Option Authenticator → Option Config → σ → Option GcrError × σ

/-- Outcome of one adapter operation: its returned value and error, the
receiver after the call, the collaborator state after the call, the
collaborator calls performed (in order) and the `log.Errorf` messages
emitted (in order). -/
structure OpResult (α : Type) (σ : Type) where
  value : α
  error : Option GcrError
  repo : TrustedGcrRepository
  state : σ
  calls : List CallEvent
  logs : List String

/-- `NewTrustedGcrRepository` (gcr.go lines 19-26): parse the config; on
failure log and return the zero struct with the error; on success return
the populated struct.  Result: (constructed repo, error, log messages). -/
def NewTrustedGcrRepository {σ : Type} (w : World σ) (configDir : String)
    (ref : Option Reference) (registryAuth notaryAuth : Option Authenticator) :
    TrustedGcrRepository × Option GcrError × List String :=
  match w.parseConfig configDir with
  | (_, some e) =>
      (TrustedGcrRepository.zero, some e, ["failed to parse config: " ++ e.msg])
  | (config, none) =>
      ({ ref := ref, registryAuth := registryAuth, notaryAuth := notaryAuth,
         config := config }, none, [])

/-- `ListTarget` (gcr.go lines 28-35): delegate to `listTargets` with the
notary authenticator; on error log and return `(nil, err)`, else return
the targets. -/
def TrustedGcrRepository.ListTarget {σ : Type} (w : World σ)
    (repo : TrustedGcrRepository) (s : σ) : OpResult (Option (List TargetRec)) σ :=
  match w.listTargets repo.ref repo.notaryAuth repo.config s with
  | ((_, some e), s') =>
      { value := none, error := some e, repo := repo, state := s',
        calls := [.trustList repo.ref repo.notaryAuth],
        logs := ["failed to list targets: " ++ e.msg] }
  | ((targets, none), s') =>
      { value := targets, error := none, repo := repo, state := s',
        calls := [.trustList repo.ref repo.notaryAuth], logs := [] }

/-- `TrustPush` (gcr.go lines 37-44): push the image to the registry with
the registry authenticator; on failure log and return the error; on
success return `pushTrustedReference` with the notary authenticator
directly (no logging, no wrapping on that path). -/
def TrustedGcrRepository.TrustPush {σ : Type} (w : World σ)
    (repo : TrustedGcrRepository) (img : Image) (s : σ) : OpResult Unit σ :=
  match w.pushImage repo.ref img repo.registryAuth s with
  | (some e, s') =>
      { value := (), error := some e, repo := repo, state := s',
        calls := [.registryPush repo.ref img repo.registryAuth],
        logs := ["failed to push image: " ++ e.msg] }
  | (none, s') =>
      match w.pushTrustedReference repo.ref img repo.notaryAuth repo.config s' with
      | (err, s'') =>
          { value := (), error := err, repo := repo, state := s'',
            calls := [.registryPush repo.ref img repo.registryAuth,
                      .trustPublish repo.ref img repo.notaryAuth],
            logs := [] }

/-- `Verify` (gcr.go lines 46-53): delegate to `getTrustedTarget` with
the notary authenticator; on error log and return `(nil, err)`, else
return the target. -/
def TrustedGcrRepository.Verify {σ : Type} (w : World σ)
    (repo : TrustedGcrRepository) (s : σ) : OpResult (Option TargetRec) σ :=
  match w.getTrustedTarget repo.ref repo.notaryAuth repo.config s with
  | ((_, some e), s') =>
      { value := none, error := some e, repo := repo, state := s',
        calls := [.trustGet repo.ref repo.notaryAuth],
        logs := ["failed to verify repository: " ++ e.msg] }
  | ((target, none), s') =>
      { value := target, error := none, repo := repo, state := s',
        calls := [.trustGet repo.ref repo.notaryAuth], logs := [] }

/-- `SignImage` (gcr.go lines 55-62): delegate to `signImage` with the
notary authenticator; on error log and return it, else return nil. -/
def TrustedGcrRepository.SignImage {σ : Type} (w : World σ)
    (repo : TrustedGcrRepository) (img : Image) (s : σ) : OpResult Unit σ :=
  match w.signImage repo.ref img repo.notaryAuth repo.config s with
  | (some e, s') =>
      { value := (), error := some e, repo := repo, state := s',
        calls := [.trustSign repo.ref img repo.notaryAuth],
        logs := ["failed to sign image: " ++ e.msg] }
  | (none, s') =>
      { value := (), error := none, repo := repo, state := s',
        calls := [.trustSign repo.ref img repo.notaryAuth], logs := [] }

/-- `RevokeTag` (gcr.go lines 64-71): delegate to `revokeImage` with the
notary authenticator; on error log and return it, else return nil. -/
def TrustedGcrRepository.RevokeTag {σ : Type} (w : World σ)
    (repo : TrustedGcrRepository) (tag : String) (s : σ) : OpResult Unit σ :=
  match w.revokeImage repo.ref tag repo.notaryAuth repo.config s with
  | (some e, s') =>
      { value := (), error := some e, repo := repo, state := s',
        calls := [.trustRevoke repo.ref tag repo.notaryAuth],
        logs := ["failed to revoke trusted repository: " ++ e.msg] }
  | (none, s') =>
      { value := (), error := none, repo := repo, state := s',
        calls := [.trustRevoke repo.ref tag repo.notaryAuth], logs := [] }

/-! ## Spec-modelled collaborator semantics

The bodies of `listTargets`, `pushTrustedReference`, `getTrustedTarget`,
`signImage`, `revokeImage` and `trust.ParseConfig` are repository code
that is not part of the adapter file; their behaviour is modelled from
the specification (sections 4.1, 6 and 7) so that end-to-end claims can
be settled. -/

/-- Modelled from the spec: the trust service's view of one repository.
`published = none` means no trust metadata has ever been published for
this repository; `some ts` is the signed target set of the targets role.
`reachable` is trust-service transport availability; `keyOk` is the
availability of a usable signing key and passphrase. -/
structure TrustState where
  reachable : Bool
  keyOk : Bool
  published : Option (List TargetRec)
deriving DecidableEq, Repr

/-- State of both collaborators: whether the registry upload succeeds,
and the trust-service state. -/
structure SysState where
  registryOk : Bool
  trust : TrustState
deriving DecidableEq, Repr

/-- Remove every target entry bound to `tag`. -/
def removeTag : List TargetRec → String → List TargetRec
  | [], _ => []
  | t :: ts, tag => if t.tag == tag then removeTag ts tag else t :: removeTag ts tag

/-- Modelled from the spec: publishing/signing adds or updates the
Target entry for `tag`, binding it to `digest` and `size`. -/
def setTarget (st : TrustState) (tag digest : String) (size : Nat) : TrustState :=
  { st with published := some (⟨tag, digest, size⟩ :: removeTag (st.published.getD []) tag) }

/-- The target currently bound to `tag` in the trust state, if any. -/
def boundTarget (st : TrustState) (tag : String) : Option TargetRec :=
  (st.published.getD []).find? (fun t => t.tag == tag)

/-- Modelled from the spec: `listTargets` (section 4.1 `ListTargets`)
fails with `TrustUnavailable` if the trust service cannot be reached,
with `NoTrustData` if no trust metadata has ever been published, and
otherwise returns the published target set (possibly empty). -/
def specListTargets (st : TrustState) : Option (List TargetRec) × Option GcrError :=
  if st.reachable then
    match st.published with
    | some ts => (some ts, none)
    | none => (none, some ⟨.NoTrustData, "no trust data"⟩)
  else (none, some ⟨.TrustUnavailable, "trust service unreachable"⟩)

/-- Modelled from the spec: `getTrustedTarget` (section 4.1 `Verify`)
retrieves the Target bound to the reference's tag; fails with
`NotTrusted` if no valid signed target matches the tag and with
`TrustUnavailable` on transport failure. -/
def specGetTrustedTarget (st : TrustState) (tag : String) : Option TargetRec × Option GcrError :=
  if st.reachable then
    match boundTarget st tag with
    | some t => (some t, none)
    | none => (none, some ⟨.NotTrusted, "no valid trust data for tag"⟩)
  else (none, some ⟨.TrustUnavailable, "trust service unreachable"⟩)

/-- Modelled from the spec: `pushTrustedReference` (phase b of
section 4.1 `Push`) computes the image's digest and size and
publishes/signs a Target entry for the reference's tag; any failure of
the phase is `TrustPublishError`. -/
def specPushTrustedReference (st : TrustState) (tag digest : String) (size : Nat) :
    Option GcrError × TrustState :=
  if st.reachable then
    if st.keyOk then (none, setTarget st tag digest size)
    else (some ⟨.TrustPublishError, "trust publish failed"⟩, st)
  else (some ⟨.TrustPublishError, "trust service unreachable"⟩, st)

/-- Modelled from the spec: `signImage` (section 4.1 `Sign`) adds or
updates the Target entry for the reference's tag; fails with
`SigningError` if no usable signing key or passphrase is available, and
with `TrustUnavailable` on transport failure. -/
def specSignImage (st : TrustState) (tag digest : String) (size : Nat) :
    Option GcrError × TrustState :=
  if st.reachable then
    if st.keyOk then (none, setTarget st tag digest size)
    else (some ⟨.SigningError, "no usable signing key"⟩, st)
  else (some ⟨.TrustUnavailable, "trust service unreachable"⟩, st)

/-- Modelled from the spec: `revokeImage` (section 4.1 `Revoke`) removes
the Target entry for `tag` and re-signs; fails with `NotTrusted` if no
target existed for the tag and with `SigningError` if re-signing fails. -/
def specRevokeImage (st : TrustState) (tag : String) : Option GcrError × TrustState :=
  if st.reachable then
    match st.published with
    | none => (some ⟨.NotTrusted, "no target for tag"⟩, st)
    | some ts =>
        if ts.any (fun t => t.tag == tag) then
          if st.keyOk then (none, { st with published := some (removeTag ts tag) })
          else (some ⟨.SigningError, "re-signing failed"⟩, st)
        else (some ⟨.NotTrusted, "no target for tag"⟩, st)
  else (some ⟨.TrustUnavailable, "trust service unreachable"⟩, st)

/-- The tag of a (possibly nil) reference; Go's nil reference has no
tag. -/
def refTag : Option Reference → String
  | some r => r.tag
  | none => ""

/-- Modelled from the spec: `trust.ParseConfig` (section 6) fails with
`ConfigError` on a missing/unreadable directory (modelled as the empty
path) and otherwise yields a config rooted at the directory. -/
def specParseConfig (configDir : String) : Option Config × Option GcrError :=
  if configDir = "" then (none, some ⟨.ConfigError, "config directory missing"⟩)
  else (some ⟨"https://notary.example", configDir⟩, none)

/-- The collaborators instantiated with the spec-modelled semantics over
`SysState`. -/
def specWorld : World SysState where
  parseConfig := specParseConfig
  pushImage := fun _ _ _ s =>
    (if s.registryOk then none else some ⟨.RegistryPushError, "registry push failed"⟩, s)
  pushTrustedReference := fun ref img _ _ s =>
    match specPushTrustedReference s.trust (refTag ref) img.digest img.size with
    | (e, t) => (e, { s with trust := t })
  listTargets := fun _ _ _ s => (specListTargets s.trust, s)
  getTrustedTarget := fun ref _ _ s => (specGetTrustedTarget s.trust (refTag ref), s)
  signImage := fun ref img _ _ s =>
    match specSignImage s.trust (refTag ref) img.digest img.size with
    | (e, t) => (e, { s with trust := t })
  revokeImage := fun _ tag _ _ s =>
    match specRevokeImage s.trust tag with
    | (e, t) => (e, { s with trust := t })

/-- Modelled from the spec (section 3 invariant): collaborators that
actually authenticate.  Each call succeeds exactly when it receives the
credential its service expects (`regCred` for the registry, `trustCred`
for the trust service); any other credential fails authentication rather
than silently succeeding. -/
def authWorld (regCred trustCred : Authenticator) : World Unit where
  parseConfig := fun _ => (some ⟨"https://notary.example", "dir"⟩, none)
  pushImage := fun _ _ a s =>
    (if a = some regCred then none
     else some ⟨.RegistryPushError, "authentication failed"⟩, s)
  pushTrustedReference := fun _ _ a _ s =>
    (if a = some trustCred then none
     else some ⟨.TrustPublishError, "authentication failed"⟩, s)
  listTargets := fun _ a _ s =>
    ((none, if a = some trustCred then none
            else some ⟨.TrustUnavailable, "authentication failed"⟩), s)
  getTrustedTarget := fun _ a _ s =>
    ((none, if a = some trustCred then none
            else some ⟨.TrustUnavailable, "authentication failed"⟩), s)
  signImage := fun _ _ a _ s =>
    (if a = some trustCred then none
     else some ⟨.SigningError, "authentication failed"⟩, s)
  revokeImage := fun _ _ a _ s =>
    (if a = some trustCred then none
     else some ⟨.SigningError, "authentication failed"⟩, s)

/-- Does a call go to its service's designated authenticator: registry
calls must carry the adapter's registry authenticator, trust-service
calls its notary authenticator. -/
def usesDesignatedAuth (repo : TrustedGcrRepository) (c : CallEvent) : Prop :=
  if c.isRegistry then c.auth = repo.registryAuth else c.auth = repo.notaryAuth

/-- Concrete adapter used to witness the theorems. -/
def repoW : TrustedGcrRepository :=
  { ref := some ⟨"gcr.io/demo/app", "v1"⟩, registryAuth := some ⟨"registry-token"⟩,
    notaryAuth := some ⟨"notary-token"⟩, config := some ⟨"https://notary.example", "dir"⟩ }

/-- Concrete image used to witness the theorems. -/
def imgW : Image := ⟨"sha256:aaa", 1024⟩

/-- Collaborator state: registry upload fails, trust service healthy. -/
def sDown : SysState := ⟨false, ⟨true, true, none⟩⟩

/-- Collaborator state: registry healthy, trust service unreachable. -/
def sNoTrust : SysState := ⟨true, ⟨false, true, none⟩⟩

/-- Collaborator state: everything healthy, no trust data published. -/
def sFresh : SysState := ⟨true, ⟨true, true, none⟩⟩

/-! ## Helper lemmas -/

theorem find?_removeTag (ts : List TargetRec) (tag : String) :
    (removeTag ts tag).find? (fun t => t.tag == tag) = none := by
  induction ts with
  | nil => rfl
  | cons t ts ih =>
      cases h : t.tag == tag with
      | true => simpa [removeTag, h] using ih
      | false => simp [removeTag, h, List.find?, ih]

theorem boundTarget_setTarget (st : TrustState) (tag digest : String) (size : Nat) :
    boundTarget (setTarget st tag digest size) tag = some ⟨tag, digest, size⟩ := by
  simp [boundTarget, setTarget, List.find?]

theorem setTarget_reachable (st : TrustState) (tag digest : String) (size : Nat) :
    (setTarget st tag digest size).reachable = st.reachable := rfl

theorem setTarget_keyOk (st : TrustState) (tag digest : String) (size : Nat) :
    (setTarget st tag digest size).keyOk = st.keyOk := rfl

theorem specRevokeImage_ok (st : TrustState) (tag : String) (st' : TrustState)
    (h : specRevokeImage st tag = (none, st')) :
    st'.reachable = true ∧ boundTarget st' tag = none := by
  unfold specRevokeImage at h
  split at h
  case isTrue hreach =>
    split at h
    case h_1 => simp at h
    case h_2 ts hpub =>
      split at h
      case isTrue hany =>
        split at h
        case isTrue hkey =>
          rw [Prod.mk.injEq] at h
          obtain ⟨-, h⟩ := h
          subst h
          exact ⟨hreach, by simp [boundTarget, find?_removeTag]⟩
        case isFalse hkey => simp at h
      case isFalse hany => simp at h
  case isFalse hreach => simp at h

end NotaryGcr

namespace NotaryGcr

open TrustedGcrRepository

/-- C1: if the registry upload performed by `TrustPush` fails, the
operation returns the registry-phase error, its collaborator trace is
exactly the single registry call, and in particular the trust-service
collaborator receives zero calls — trust publishing is attempted only
after the registry upload succeeds. -/
theorem trustPush_registry_failure_skips_trust {σ : Type} (w : World σ)
    (repo : TrustedGcrRepository) (img : Image) (s : σ) (e : GcrError)
    (h : (w.pushImage repo.ref img repo.registryAuth s).1 = some e) :
    (repo.TrustPush w img s).error = some e ∧
    (repo.TrustPush w img s).calls = [.registryPush repo.ref img repo.registryAuth] ∧
    ∀ c ∈ (repo.TrustPush w img s).calls, c.isTrust = false := by
  rcases hp : w.pushImage repo.ref img repo.registryAuth s with ⟨err, s'⟩
  rw [hp] at h
  simp only at h
  subst h
  simp [TrustedGcrRepository.TrustPush, hp, CallEvent.isTrust]

/-- C1 witness: at the spec-modelled collaborators with the registry
down, `TrustPush` of the concrete image returns the registry error and
performs no trust-service call. -/
theorem trustPush_registry_failure_skips_trust_witness :
    (repoW.TrustPush specWorld imgW sDown).error =
      some ⟨.RegistryPushError, "registry push failed"⟩ ∧
    (repoW.TrustPush specWorld imgW sDown).calls =
      [.registryPush repoW.ref imgW repoW.registryAuth] ∧
    ∀ c ∈ (repoW.TrustPush specWorld imgW sDown).calls, c.isTrust = false :=
  trustPush_registry_failure_skips_trust specWorld repoW imgW sDown _ rfl

/-- C7: no adapter operation swallows an error: each operation returns
nil exactly when every collaborator call it delegated to returned nil,
so any collaborator failure yields a non-nil error to the caller and no
partial success is reported as success. -/
theorem no_error_swallowed {σ : Type} (w : World σ) (configDir : String)
    (ref : Option Reference) (ra na : Option Authenticator)
    (repo : TrustedGcrRepository) (img : Image) (tag : String) (s : σ) :
    ((NewTrustedGcrRepository w configDir ref ra na).2.1 = none ↔
      (w.parseConfig configDir).2 = none) ∧
    ((repo.ListTarget w s).error = none ↔
      (w.listTargets repo.ref repo.notaryAuth repo.config s).1.2 = none) ∧
    ((repo.TrustPush w img s).error = none ↔
      (w.pushImage repo.ref img repo.registryAuth s).1 = none ∧
      (w.pushTrustedReference repo.ref img repo.notaryAuth repo.config
        (w.pushImage repo.ref img repo.registryAuth s).2).1 = none) ∧
    ((repo.Verify w s).error = none ↔
      (w.getTrustedTarget repo.ref repo.notaryAuth repo.config s).1.2 = none) ∧
    ((repo.SignImage w img s).error = none ↔
      (w.signImage repo.ref img repo.notaryAuth repo.config s).1 = none) ∧
    ((repo.RevokeTag w tag s).error = none ↔
      (w.revokeImage repo.ref tag repo.notaryAuth repo.config s).1 = none) := by
  refine ⟨?_, ?_, ?_, ?_, ?_, ?_⟩
  · rcases hc : w.parseConfig configDir with ⟨cfg, err⟩
    cases err <;> simp [NewTrustedGcrRepository, hc]
  · rcases hc : w.listTargets repo.ref repo.notaryAuth repo.config s with ⟨⟨v, err⟩, s'⟩
    cases err <;> simp [TrustedGcrRepository.ListTarget, hc]
  · rcases hp : w.pushImage repo.ref img repo.registryAuth s with ⟨err, s'⟩
    cases err with
    | some e => simp [TrustedGcrRepository.TrustPush, hp]
    | none =>
        rcases hq : w.pushTrustedReference repo.ref img repo.notaryAuth repo.config s'
          with ⟨err2, s''⟩
        cases err2 <;> simp [TrustedGcrRepository.TrustPush, hp, hq]
  · rcases hc : w.getTrustedTarget repo.ref repo.notaryAuth repo.config s with ⟨⟨v, err⟩, s'⟩
    cases err <;> simp [TrustedGcrRepository.Verify, hc]
  · rcases hc : w.signImage repo.ref img repo.notaryAuth repo.config s with ⟨err, s'⟩
    cases err <;> simp [TrustedGcrRepository.SignImage, hc]
  · rcases hc : w.revokeImage repo.ref tag repo.notaryAuth repo.config s with ⟨err, s'⟩
    cases err <;> simp [TrustedGcrRepository.RevokeTag, hc]

/-- C9: the adapter is stateless: every operation returns the receiver
with its four fields unchanged, and the result of each operation is
fully determined by those four fields and the arguments — two adapters
agreeing on all four fields behave identically. -/
theorem operations_preserve_fields {σ : Type} (w : World σ)
    (repo repo₂ : TrustedGcrRepository) (img : Image) (tag : String) (s : σ)
    (href : repo₂.ref = repo.ref) (hra : repo₂.registryAuth = repo.registryAuth)
    (hna : repo₂.notaryAuth = repo.notaryAuth) (hc : repo₂.config = repo.config) :
    ((repo.ListTarget w s).repo = repo ∧ (repo.TrustPush w img s).repo = repo ∧
      (repo.Verify w s).repo = repo ∧ (repo.SignImage w img s).repo = repo ∧
      (repo.RevokeTag w tag s).repo = repo) ∧
    (repo₂.ListTarget w s = repo.ListTarget w s ∧
      repo₂.TrustPush w img s = repo.TrustPush w img s ∧
      repo₂.Verify w s = repo.Verify w s ∧
      repo₂.SignImage w img s = repo.SignImage w img s ∧
      repo₂.RevokeTag w tag s = repo.RevokeTag w tag s) := by
  have hrepo : repo₂ = repo := by
    cases repo₂; cases repo; simp_all
  subst hrepo
  refine ⟨⟨?_, ?_, ?_, ?_, ?_⟩, ⟨rfl, rfl, rfl, rfl, rfl⟩⟩
  · rcases hcall : w.listTargets repo₂.ref repo₂.notaryAuth repo₂.config s with ⟨⟨v, err⟩, s'⟩
    cases err <;> simp [TrustedGcrRepository.ListTarget, hcall]
  · rcases hp : w.pushImage repo₂.ref img repo₂.registryAuth s with ⟨err, s'⟩
    cases err with
    | some e => simp [TrustedGcrRepository.TrustPush, hp]
    | none =>
        rcases hq : w.pushTrustedReference repo₂.ref img repo₂.notaryAuth repo₂.config s'
          with ⟨err2, s''⟩
        simp [TrustedGcrRepository.TrustPush, hp, hq]
  · rcases hcall : w.getTrustedTarget repo₂.ref repo₂.notaryAuth repo₂.config s with ⟨⟨v, err⟩, s'⟩
    cases err <;> simp [TrustedGcrRepository.Verify, hcall]
  · rcases hcall : w.signImage repo₂.ref img repo₂.notaryAuth repo₂.config s with ⟨err, s'⟩
    cases err <;> simp [TrustedGcrRepository.SignImage, hcall]
  · rcases hcall : w.revokeImage repo₂.ref tag repo₂.notaryAuth repo₂.config s with ⟨err, s'⟩
    cases err <;> simp [TrustedGcrRepository.RevokeTag, hcall]

/-- C9 witness: at the spec-modelled collaborators and the concrete
adapter, all five operations leave the receiver unchanged and an
adapter with the same fields behaves identically. -/
theorem operations_preserve_fields_witness :
    ((repoW.ListTarget specWorld sFresh).repo = repoW ∧
      (repoW.TrustPush specWorld imgW sFresh).repo = repoW ∧
      (repoW.Verify specWorld sFresh).repo = repoW ∧
      (repoW.SignImage specWorld imgW sFresh).repo = repoW ∧
      (repoW.RevokeTag specWorld "v1" sFresh).repo = repoW) ∧
    (repoW.ListTarget specWorld sFresh = repoW.ListTarget specWorld sFresh ∧
      repoW.TrustPush specWorld imgW sFresh = repoW.TrustPush specWorld imgW sFresh ∧
      repoW.Verify specWorld sFresh = repoW.Verify specWorld sFresh ∧
      repoW.SignImage specWorld imgW sFresh = repoW.SignImage specWorld imgW sFresh ∧
      repoW.RevokeTag specWorld "v1" sFresh = repoW.RevokeTag specWorld "v1" sFresh) :=
  operations_preserve_fields specWorld repoW repoW imgW "v1" sFresh rfl rfl rfl rfl

/-- C10: if configuration parsing fails, `NewTrustedGcrRepository`
returns the zero-valued struct (all four fields nil) together with the
parse error; if parsing succeeds, it returns without error the adapter
holding exactly the given reference, the two given authenticators and
the parsed config. -/
theorem newTrustedGcrRepository_zero_on_parse_error {σ : Type} (w : World σ)
    (configDir : String) (ref : Option Reference) (ra na : Option Authenticator) :
    (∀ e, (w.parseConfig configDir).2 = some e →
      NewTrustedGcrRepository w configDir ref ra na =
        (TrustedGcrRepository.zero, some e, ["failed to parse config: " ++ e.msg])) ∧
    ((w.parseConfig configDir).2 = none →
      NewTrustedGcrRepository w configDir ref ra na =
        ({ ref := ref, registryAuth := ra, notaryAuth := na,
           config := (w.parseConfig configDir).1 }, none, [])) := by
  rcases hc : w.parseConfig configDir with ⟨cfg, err⟩
  cases err <;> simp [NewTrustedGcrRepository, hc]

/-- C10 witness: at the spec-modelled config parser, the empty config
directory fails to parse and construction returns the zero struct with
the `ConfigError`. -/
theorem newTrustedGcrRepository_zero_on_parse_error_witness :
    NewTrustedGcrRepository specWorld "" repoW.ref repoW.registryAuth repoW.notaryAuth =
      (TrustedGcrRepository.zero, some ⟨.ConfigError, "config directory missing"⟩,
       ["failed to parse config: " ++ "config directory missing"]) :=
  (newTrustedGcrRepository_zero_on_parse_error specWorld "" repoW.ref repoW.registryAuth
    repoW.notaryAuth).1 _ rfl

/-- C2: with the spec-modelled collaborators, if `TrustPush` of an image
succeeds (registry upload and trust publication), a subsequent `Verify`
on the same adapter returns without error the Target bound to the
reference's tag, whose digest and size equal the image's computed digest
and size. -/
theorem trustPush_success_verify_digest (repo : TrustedGcrRepository)
    (img : Image) (s : SysState)
    (h : (repo.TrustPush specWorld img s).error = none) :
    (repo.Verify specWorld ((repo.TrustPush specWorld img s).state)).error = none ∧
    (repo.Verify specWorld ((repo.TrustPush specWorld img s).state)).value =
      some ⟨refTag repo.ref, img.digest, img.size⟩ := by
  cases hreg : s.registryOk with
  | false =>
      exfalso
      simp [TrustedGcrRepository.TrustPush, specWorld, hreg] at h
  | true =>
      cases hr : s.trust.reachable with
      | false =>
          exfalso
          simp [TrustedGcrRepository.TrustPush, specWorld, specPushTrustedReference,
            hreg, hr] at h
      | true =>
          cases hk : s.trust.keyOk with
          | false =>
              exfalso
              simp [TrustedGcrRepository.TrustPush, specWorld, specPushTrustedReference,
                hreg, hr, hk] at h
          | true =>
              simp [TrustedGcrRepository.TrustPush, TrustedGcrRepository.Verify, specWorld,
                specPushTrustedReference, specGetTrustedTarget, hreg, hr, hk,
                setTarget_reachable, boundTarget_setTarget]

/-- C2 witness: pushing the concrete image to a fresh healthy system
succeeds, and `Verify` afterwards returns the Target with the image's
digest and size under the reference's tag. -/
theorem trustPush_success_verify_digest_witness :
    (repoW.Verify specWorld ((repoW.TrustPush specWorld imgW sFresh).state)).error = none ∧
    (repoW.Verify specWorld ((repoW.TrustPush specWorld imgW sFresh).state)).value =
      some ⟨refTag repoW.ref, imgW.digest, imgW.size⟩ :=
  trustPush_success_verify_digest repoW imgW sFresh rfl

/-- C4: with the spec-modelled collaborators, `ListTarget` on a
repository for which no trust metadata has ever been published returns
the `NoTrustData` error and no target list (never an empty success),
while transport failure to the trust service is distinguished as
`TrustUnavailable`. -/
theorem listTarget_no_trust_data (repo : TrustedGcrRepository) (s : SysState) :
    (s.trust.reachable = true → s.trust.published = none →
      (repo.ListTarget specWorld s).error = some ⟨.NoTrustData, "no trust data"⟩ ∧
      (repo.ListTarget specWorld s).value = none) ∧
    (s.trust.reachable = false →
      (repo.ListTarget specWorld s).error =
        some ⟨.TrustUnavailable, "trust service unreachable"⟩ ∧
      (repo.ListTarget specWorld s).value = none) := by
  constructor
  · intro hr hp
    simp [TrustedGcrRepository.ListTarget, specWorld, specListTargets, hr, hp]
  · intro hr
    simp [TrustedGcrRepository.ListTarget, specWorld, specListTargets, hr]

/-- C4 witness: on the fresh system with no published trust metadata,
`ListTarget` fails with `NoTrustData` and returns no list; on the
unreachable trust service it fails with `TrustUnavailable`. -/
theorem listTarget_no_trust_data_witness :
    ((repoW.ListTarget specWorld sFresh).error = some ⟨.NoTrustData, "no trust data"⟩ ∧
      (repoW.ListTarget specWorld sFresh).value = none) ∧
    ((repoW.ListTarget specWorld sNoTrust).error =
        some ⟨.TrustUnavailable, "trust service unreachable"⟩ ∧
      (repoW.ListTarget specWorld sNoTrust).value = none) :=
  ⟨(listTarget_no_trust_data repoW sFresh).1 rfl rfl,
   (listTarget_no_trust_data repoW sNoTrust).2 rfl⟩

/-- C5: with the spec-modelled collaborators, a successful
`RevokeTag` of the reference's tag followed by `Verify` on the resulting
state yields the `NotTrusted` error and no target: after revocation no
valid signed target is returned for the tag. -/
theorem revoke_then_verify_not_trusted (repo : TrustedGcrRepository) (s : SysState)
    (h : (repo.RevokeTag specWorld (refTag repo.ref) s).error = none) :
    (repo.Verify specWorld ((repo.RevokeTag specWorld (refTag repo.ref) s).state)).error =
      some ⟨.NotTrusted, "no valid trust data for tag"⟩ ∧
    (repo.Verify specWorld ((repo.RevokeTag specWorld (refTag repo.ref) s).state)).value =
      none := by
  rcases hrev : specRevokeImage s.trust (refTag repo.ref) with ⟨err, t⟩
  cases err with
  | some e =>
      exfalso
      simp [TrustedGcrRepository.RevokeTag, specWorld, hrev] at h
  | none =>
      obtain ⟨hreach, hbound⟩ := specRevokeImage_ok s.trust (refTag repo.ref) t hrev
      have hstate : (repo.RevokeTag specWorld (refTag repo.ref) s).state =
          { s with trust := t } := by
        simp [TrustedGcrRepository.RevokeTag, specWorld, hrev]
      rw [hstate]
      simp [TrustedGcrRepository.Verify, specWorld, specGetTrustedTarget, hreach, hbound]

/-- C5 witness: on a system whose trust state binds the reference's tag,
revoking that tag succeeds and the subsequent `Verify` fails with
`NotTrusted`. -/
theorem revoke_then_verify_not_trusted_witness :
    (repoW.Verify specWorld
        ((repoW.RevokeTag specWorld (refTag repoW.ref)
          ⟨true, ⟨true, true, some [⟨"v1", "sha256:aaa", 1024⟩]⟩⟩).state)).error =
      some ⟨.NotTrusted, "no valid trust data for tag"⟩ ∧
    (repoW.Verify specWorld
        ((repoW.RevokeTag specWorld (refTag repoW.ref)
          ⟨true, ⟨true, true, some [⟨"v1", "sha256:aaa", 1024⟩]⟩⟩).state)).value = none :=
  revoke_then_verify_not_trusted repoW ⟨true, ⟨true, true, some [⟨"v1", "sha256:aaa", 1024⟩]⟩⟩
    (by simp [TrustedGcrRepository.RevokeTag, specWorld, specRevokeImage, repoW, refTag])

/-- C8: with the spec-modelled collaborators, `SignImage` is idempotent:
after a successful signing, signing the same image again succeeds, and
the Target (digest, size) bound to the reference's tag after the second
call equals the one after the first — namely the image's digest and
size. -/
theorem signImage_idempotent (repo : TrustedGcrRepository) (img : Image) (s : SysState)
    (h : (repo.SignImage specWorld img s).error = none) :
    (repo.SignImage specWorld img ((repo.SignImage specWorld img s).state)).error = none ∧
    boundTarget ((repo.SignImage specWorld img
        ((repo.SignImage specWorld img s).state)).state).trust (refTag repo.ref) =
      boundTarget ((repo.SignImage specWorld img s).state).trust (refTag repo.ref) ∧
    boundTarget ((repo.SignImage specWorld img s).state).trust (refTag repo.ref) =
      some ⟨refTag repo.ref, img.digest, img.size⟩ := by
  cases hr : s.trust.reachable with
  | false =>
      exfalso
      simp [TrustedGcrRepository.SignImage, specWorld, specSignImage, hr] at h
  | true =>
      cases hk : s.trust.keyOk with
      | false =>
          exfalso
          simp [TrustedGcrRepository.SignImage, specWorld, specSignImage, hr, hk] at h
      | true =>
          simp [TrustedGcrRepository.SignImage, specWorld, specSignImage, hr, hk,
            setTarget_reachable, setTarget_keyOk, boundTarget_setTarget]

/-- C8 witness: signing the concrete image twice on the fresh healthy
system succeeds and leaves the same Target bound to the tag after the
second call as after the first. -/
theorem signImage_idempotent_witness :
    (repoW.SignImage specWorld imgW ((repoW.SignImage specWorld imgW sFresh).state)).error =
      none ∧
    boundTarget ((repoW.SignImage specWorld imgW
        ((repoW.SignImage specWorld imgW sFresh).state)).state).trust (refTag repoW.ref) =
      boundTarget ((repoW.SignImage specWorld imgW sFresh).state).trust (refTag repoW.ref) ∧
    boundTarget ((repoW.SignImage specWorld imgW sFresh).state).trust (refTag repoW.ref) =
      some ⟨refTag repoW.ref, imgW.digest, imgW.size⟩ :=
  signImage_idempotent repoW imgW sFresh rfl

/-- C3: the two authenticators are never interchanged: in every
operation, every registry-collaborator call receives the adapter's
registry authenticator and every trust-service call (list, publish,
verify, sign, revoke) receives the notary authenticator; and against
authenticating collaborators, an adapter whose registry (resp. trust)
slot holds the other service's credential fails authentication rather
than silently succeeding. -/
theorem authenticators_never_interchanged {σ : Type} (w : World σ)
    (repo : TrustedGcrRepository) (img : Image) (tag : String) (s : σ)
    (regCred trustCred : Authenticator) :
    ((∀ c ∈ (repo.ListTarget w s).calls, usesDesignatedAuth repo c) ∧
      (∀ c ∈ (repo.TrustPush w img s).calls, usesDesignatedAuth repo c) ∧
      (∀ c ∈ (repo.Verify w s).calls, usesDesignatedAuth repo c) ∧
      (∀ c ∈ (repo.SignImage w img s).calls, usesDesignatedAuth repo c) ∧
      (∀ c ∈ (repo.RevokeTag w tag s).calls, usesDesignatedAuth repo c)) ∧
    (regCred ≠ trustCred →
      (TrustedGcrRepository.TrustPush (authWorld regCred trustCred)
        { repo with registryAuth := some trustCred } img ()).error ≠ none ∧
      (TrustedGcrRepository.ListTarget (authWorld regCred trustCred)
        { repo with notaryAuth := some regCred } ()).error ≠ none) := by
  constructor
  · refine ⟨?_, ?_, ?_, ?_, ?_⟩
    · rcases hc : w.listTargets repo.ref repo.notaryAuth repo.config s with ⟨⟨v, err⟩, s'⟩
      cases err <;>
        simp [TrustedGcrRepository.ListTarget, hc, usesDesignatedAuth,
          CallEvent.isRegistry, CallEvent.auth]
    · rcases hp : w.pushImage repo.ref img repo.registryAuth s with ⟨err, s'⟩
      cases err with
      | some e =>
          simp [TrustedGcrRepository.TrustPush, hp, usesDesignatedAuth,
            CallEvent.isRegistry, CallEvent.auth]
      | none =>
          rcases hq : w.pushTrustedReference repo.ref img repo.notaryAuth repo.config s'
            with ⟨err2, s''⟩
          simp [TrustedGcrRepository.TrustPush, hp, hq, usesDesignatedAuth,
            CallEvent.isRegistry, CallEvent.auth]
    · rcases hc : w.getTrustedTarget repo.ref repo.notaryAuth repo.config s with ⟨⟨v, err⟩, s'⟩
      cases err <;>
        simp [TrustedGcrRepository.Verify, hc, usesDesignatedAuth,
          CallEvent.isRegistry, CallEvent.auth]
    · rcases hc : w.signImage repo.ref img repo.notaryAuth repo.config s with ⟨err, s'⟩
      cases err <;>
        simp [TrustedGcrRepository.SignImage, hc, usesDesignatedAuth,
          CallEvent.isRegistry, CallEvent.auth]
    · rcases hc : w.revokeImage repo.ref tag repo.notaryAuth repo.config s with ⟨err, s'⟩
      cases err <;>
        simp [TrustedGcrRepository.RevokeTag, hc, usesDesignatedAuth,
          CallEvent.isRegistry, CallEvent.auth]
  · intro hne
    constructor
    · simp [TrustedGcrRepository.TrustPush, authWorld, Ne.symm hne]
    · simp [TrustedGcrRepository.ListTarget, authWorld, hne]

/-- C3 witness: the trust-list call of the concrete adapter carries the
notary authenticator, and a `TrustPush` whose registry slot holds the
trust credential fails authentication. -/
theorem authenticators_never_interchanged_witness :
    usesDesignatedAuth repoW (.trustList repoW.ref repoW.notaryAuth) ∧
    (TrustedGcrRepository.TrustPush (authWorld ⟨"registry-token"⟩ ⟨"notary-token"⟩)
      { repoW with registryAuth := some ⟨"notary-token"⟩ } imgW ()).error ≠ none := by
  have h := authenticators_never_interchanged specWorld repoW imgW "v1" sFresh
    ⟨"registry-token"⟩ ⟨"notary-token"⟩
  refine ⟨h.1.1 _ ?_, (h.2 ?_).1⟩
  · show CallEvent.trustList repoW.ref repoW.notaryAuth ∈
      (repoW.ListTarget specWorld sFresh).calls
    decide
  · decide

/-- C6 counterexample: at a concrete adapter and collaborators where the
registry upload succeeds and the trust-publish phase fails, `TrustPush`
returns the collaborator's error object unchanged (no wrapping) and its
log trace is empty — the failing trust-publish path of `Push` is not
logged by the adapter, contradicting the claim that every failing path
is wrapped and logged exactly once. -/
theorem trustPush_trust_phase_error_unlogged :
    (repoW.TrustPush specWorld imgW sNoTrust).error =
      some ⟨.TrustPublishError, "trust service unreachable"⟩ ∧
    (repoW.TrustPush specWorld imgW sNoTrust).logs = [] :=
  ⟨rfl, rfl⟩

/-- C6 amended: every collaborator error is returned to the caller
unchanged (never wrapped); the adapter logs the failure exactly once,
with a message identifying the failing operation, in
`NewTrustedGcrRepository`, `ListTarget`, the registry phase of
`TrustPush`, `Verify`, `SignImage` and `RevokeTag`; the trust-publish
phase of `TrustPush` alone returns the collaborator error with no
adapter-level log. -/
theorem adapter_error_logging {σ : Type} (w : World σ) (repo : TrustedGcrRepository)
    (img : Image) (tag : String) (configDir : String) (ref : Option Reference)
    (ra na : Option Authenticator) (s : σ) :
    (∀ e, (w.parseConfig configDir).2 = some e →
      (NewTrustedGcrRepository w configDir ref ra na).2.2 =
        ["failed to parse config: " ++ e.msg] ∧
      (NewTrustedGcrRepository w configDir ref ra na).2.1 = some e) ∧
    (∀ e, (w.listTargets repo.ref repo.notaryAuth repo.config s).1.2 = some e →
      (repo.ListTarget w s).logs = ["failed to list targets: " ++ e.msg] ∧
      (repo.ListTarget w s).error = some e) ∧
    (∀ e, (w.pushImage repo.ref img repo.registryAuth s).1 = some e →
      (repo.TrustPush w img s).logs = ["failed to push image: " ++ e.msg] ∧
      (repo.TrustPush w img s).error = some e) ∧
    (∀ e, (w.pushImage repo.ref img repo.registryAuth s).1 = none →
      (w.pushTrustedReference repo.ref img repo.notaryAuth repo.config
        (w.pushImage repo.ref img repo.registryAuth s).2).1 = some e →
      (repo.TrustPush w img s).logs = [] ∧
      (repo.TrustPush w img s).error = some e) ∧
    (∀ e, (w.getTrustedTarget repo.ref repo.notaryAuth repo.config s).1.2 = some e →
      (repo.Verify w s).logs = ["failed to verify repository: " ++ e.msg] ∧
      (repo.Verify w s).error = some e) ∧
    (∀ e, (w.signImage repo.ref img repo.notaryAuth repo.config s).1 = some e →
      (repo.SignImage w img s).logs = ["failed to sign image: " ++ e.msg] ∧
      (repo.SignImage w img s).error = some e) ∧
    (∀ e, (w.revokeImage repo.ref tag repo.notaryAuth repo.config s).1 = some e →
      (repo.RevokeTag w tag s).logs = ["failed to revoke trusted repository: " ++ e.msg] ∧
      (repo.RevokeTag w tag s).error = some e) := by
  refine ⟨?_, ?_, ?_, ?_, ?_, ?_, ?_⟩
  · intro e he
    rcases hc : w.parseConfig configDir with ⟨cfg, err⟩
    rw [hc] at he
    simp only at he
    subst he
    simp [NewTrustedGcrRepository, hc]
  · intro e he
    rcases hc : w.listTargets repo.ref repo.notaryAuth repo.config s with ⟨⟨v, err⟩, s'⟩
    rw [hc] at he
    simp only at he
    subst he
    simp [TrustedGcrRepository.ListTarget, hc]
  · intro e he
    rcases hp : w.pushImage repo.ref img repo.registryAuth s with ⟨err, s'⟩
    rw [hp] at he
    simp only at he
    subst he
    simp [TrustedGcrRepository.TrustPush, hp]
  · intro e h1 h2
    rcases hp : w.pushImage repo.ref img repo.registryAuth s with ⟨err, s'⟩
    rw [hp] at h1 h2
    simp only at h1 h2
    subst h1
    rcases hq : w.pushTrustedReference repo.ref img repo.notaryAuth repo.config s'
      with ⟨err2, s''⟩
    rw [hq] at h2
    simp only at h2
    subst h2
    simp [TrustedGcrRepository.TrustPush, hp, hq]
  · intro e he
    rcases hc : w.getTrustedTarget repo.ref repo.notaryAuth repo.config s with ⟨⟨v, err⟩, s'⟩
    rw [hc] at he
    simp only at he
    subst he
    simp [TrustedGcrRepository.Verify, hc]
  · intro e he
    rcases hc : w.signImage repo.ref img repo.notaryAuth repo.config s with ⟨err, s'⟩
    rw [hc] at he
    simp only at he
    subst he
    simp [TrustedGcrRepository.SignImage, hc]
  · intro e he
    rcases hc : w.revokeImage repo.ref tag repo.notaryAuth repo.config s with ⟨err, s'⟩
    rw [hc] at he
    simp only at he
    subst he
    simp [TrustedGcrRepository.RevokeTag, hc]

/-- C6 amended witness: when the registry upload fails at the concrete
collaborators, `TrustPush` logs the failure exactly once with the
operation-identifying message and returns the collaborator error
unchanged. -/
theorem adapter_error_logging_witness :
    (repoW.TrustPush specWorld imgW sDown).logs =
      ["failed to push image: " ++ "registry push failed"] ∧
    (repoW.TrustPush specWorld imgW sDown).error =
      some ⟨.RegistryPushError, "registry push failed"⟩ :=
  (adapter_error_logging specWorld repoW imgW "v1" "dir" repoW.ref repoW.registryAuth
    repoW.notaryAuth sDown).2.2.1 _ rfl

end NotaryGcr
